import Mathlib

/-!
Verification of the external scanner of tree-sitter-rpmspec
(src/src/scanner.c) against its natural-language specification.

The scanner state, the token-kind enumeration, the literal (macro context)
record and the four entry points (serialize, deserialize, the macro-start
dispatcher and scan) are embedded shallowly.  The character cursor of the
tree-sitter lexer is modelled as the list of characters not yet consumed:
`lookahead` is the head (the null character at end of input, as in the C
runtime) and `advance` drops the head.
-/

/-- The token kinds of `enum TokenType` (scanner.c lines 9-16). -/
inductive TokenType where
  | MACRO_START
  | MACRO_EXPR_START
  | MACRO_SHELL_START
  | MACRO_END
  | NONE
deriving DecidableEq, Repr

/-- An open macro context, `struct Literal` (scanner.c lines 18-24). -/
structure Literal where
  type : TokenType
  open_delimiter : Char
  close_delimiter : Char
  nesting_depth : Int
  allows_interpolation : Bool
deriving DecidableEq, Repr

/-- The scanner state: `struct Scanner` holds one growable array of
literals, `literal_stack`; we use a Lean list with the top at the end,
matching `array_push`. -/
abbrev ScannerState := List Literal

/-- Current lookahead codepoint of the cursor; the C lexer reports the
null character at end of input. -/
def lookahead (input : List Char) : Char :=
  match input with
  | [] => Char.ofNat 0
  | c :: _ => c

/-- The `advance` helper (scanner.c lines 30-32): consume one character. -/
def advance (input : List Char) : List Char :=
  match input with
  | [] => []
  | _ :: rest => rest

/-- Embedding of `rpmspec_serialize` (scanner.c lines 38-45): the body is a
TODO stub, so the caller-provided buffer is returned untouched together
with the written size, which is 0. -/
def rpmspec_serialize (scanner : ScannerState) (buffer : List Nat) :
    List Nat × Nat :=
  let _ := scanner
  (buffer, 0)

/-- Embedding of `rpmspec_deserialize` (scanner.c lines 51-56): the body is
a TODO stub, so the scanner state is left unchanged whatever the buffer
and length are. -/
def rpmspec_deserialize (scanner : ScannerState) (buffer : List Nat)
    (length : Nat) : ScannerState :=
  let _ := buffer
  let _ := length
  scanner

/-- Embedding of `rpmspec_macro_start` (scanner.c lines 58-109).  The
function inspects the lookahead, consumes the introducer and possibly a
delimiter, fills in the literal record, and then every control path
reaches `return false` (the early returns on an unacceptable kind, and
the final fall-through at line 108).  The result is the returned flag,
the cursor after the call and the literal record after the call. -/
def rpmspec_macro_start (input : List Char) (literal : Literal)
    (valid_symbols : TokenType → Bool) : Bool × List Char × Literal :=
  if lookahead input = '%' then
    if lookahead (advance input) = '{' then
      if !valid_symbols TokenType.MACRO_START then
        (false, advance input, literal)
      else
        (false, advance (advance input),
          { literal with
            type := TokenType.MACRO_START
            open_delimiter := '{'
            close_delimiter := '}' })
    else if lookahead (advance input) = '[' then
      if !valid_symbols TokenType.MACRO_EXPR_START then
        (false, advance input, literal)
      else
        (false, advance (advance input),
          { literal with
            type := TokenType.MACRO_EXPR_START
            open_delimiter := '['
            close_delimiter := ']' })
    else if lookahead (advance input) = '(' then
      if !valid_symbols TokenType.MACRO_SHELL_START then
        (false, advance input, literal)
      else
        (false, advance (advance input),
          { literal with
            type := TokenType.MACRO_SHELL_START
            open_delimiter := '('
            close_delimiter := ')' })
    else
      (false, advance input, literal)
  else
    (false, input, literal)

/-- Result of one scan call: whether a token was produced, the
`result_symbol` set by the call (none when it was not set), the scanner
stack after the call, and the cursor after the call. -/
structure ScanResult where
  produced : Bool
  result_symbol : Option TokenType
  stack : ScannerState
  input : List Char
deriving DecidableEq, Repr

/-- The escape switch at the end of `rpmspec_scan` (scanner.c lines
130-147): a `%` lookahead is consumed; on a second `%` the comment marks
an escape sequence and the call returns false with the second `%` not yet
consumed, and on any other character the switch falls through to the
same `return false`. -/
def rpmspec_scan_escape (stack : ScannerState) (input : List Char) :
    ScanResult :=
  if lookahead input = '%' then
    if lookahead (advance input) = '%' then
      { produced := false, result_symbol := none, stack := stack,
        input := advance input }
    else
      { produced := false, result_symbol := none, stack := stack,
        input := advance input }
  else
    { produced := false, result_symbol := none, stack := stack,
      input := input }

/-- Embedding of `rpmspec_scan` (scanner.c lines 111-148).  When
MACRO_START is acceptable it builds a literal zero-initialised except for
`nesting_depth = 1` (C designated initialiser semantics: `type` is the
enum value 0, the delimiters are the null character, the flag is false)
and calls the dispatcher; on success it would push the literal and report
the token.  Otherwise, and on dispatcher failure, the escape switch runs
on the cursor as the dispatcher left it. -/
def rpmspec_scan (stack : ScannerState) (input : List Char)
    (valid_symbols : TokenType → Bool) : ScanResult :=
  if valid_symbols TokenType.MACRO_START then
    match rpmspec_macro_start input
        { type := TokenType.MACRO_START
          open_delimiter := Char.ofNat 0
          close_delimiter := Char.ofNat 0
          nesting_depth := 1
          allows_interpolation := false } valid_symbols with
    | (ok, input1, literal1) =>
      if ok then
        { produced := true, result_symbol := some literal1.type,
          stack := stack ++ [literal1], input := input1 }
      else
        rpmspec_scan_escape stack input1
  else
    rpmspec_scan_escape stack input

/-- Embedding of `tree_sitter_rpmspec_external_scanner_create`
(scanner.c lines 150-155): `ts_calloc` zero-initialises the scanner, so
the literal stack starts empty. -/
def scanner_create : ScannerState := []

/-- States reachable through any sequence of the four exposed operations:
create, scan, serialize (which does not touch the scanner state) and
deserialize. -/
inductive Reachable : ScannerState → Prop where
  | create : Reachable scanner_create
  | scan (s : ScannerState) (input : List Char)
      (valid_symbols : TokenType → Bool) (h : Reachable s) :
      Reachable (rpmspec_scan s input valid_symbols).stack
  | deserialize (s : ScannerState) (buffer : List Nat) (length : Nat)
      (h : Reachable s) :
      Reachable (rpmspec_deserialize s buffer length)

/-- Modelled from the spec: the token-kind enumeration of the repository's
second scanner draft (the spec counts 351 source lines over two drafts;
only the 184-line draft is under src/, and its TokenType enum has no
MacroExpansion member).  Spec section 3 lists MacroStart, MacroExprStart,
MacroShellStart, MacroEnd and MacroExpansion. -/
inductive SpecTokenKind where
  | MacroStart
  | MacroExprStart
  | MacroShellStart
  | MacroEnd
  | MacroExpansion
deriving DecidableEq, Repr

/-- Modelled from the spec: the character class of the simple-macro name
scanner (spec section 4.2): `*`, `#`, `_`, or any alphanumeric codepoint
is part of the token. -/
def simple_macro_char (c : Char) : Bool :=
  c = '*' || c = '#' || c = '_' || c.isAlphanum

/-- Modelled from the spec: the scan loop of section 4.2.  Starting just
after `%`, characters in the accepted class are consumed, each marking a
candidate end boundary; the first character outside the class stops the
loop and is never included, so the result is the accepted span and the
unconsumed remainder. -/
def simple_macro_name : List Char → List Char × List Char
  | [] => ([], [])
  | c :: rest =>
    if simple_macro_char c then
      let step := simple_macro_name rest
      (c :: step.1, step.2)
    else
      ([], c :: rest)

/-- Modelled from the spec: the simple-macro scanner of the second draft,
absent from src/ (spec sections 4.1 and 4.2).  On `%` followed by at
least one name character, with MacroExpansion in the acceptable-kind set,
it produces a MacroExpansion token whose span is `%` plus the accepted
characters — the committed end boundary is the last accepted name
character; if the first lookahead after `%` is already invalid, or the
kind is not acceptable, it declines rather than emit a zero-length
token. -/
def rpmspec_simple_macro (input : List Char)
    (valid_kinds : SpecTokenKind → Bool) :
    Option (SpecTokenKind × List Char × List Char) :=
  match input with
  | '%' :: rest =>
    if valid_kinds SpecTokenKind.MacroExpansion then
      match simple_macro_name rest with
      | ([], _) => none
      | (name, rem) => some (SpecTokenKind.MacroExpansion, '%' :: name, rem)
    else
      none
  | _ => none

/-- Every control path of the macro-start dispatcher returns false: the
literal is filled in and the cursor advanced, but the success flag is
never set (the function falls through to `return false`). -/
theorem rpmspec_macro_start_declines (input : List Char) (literal : Literal)
    (valid_symbols : TokenType → Bool) :
    ∃ input1 literal1,
      rpmspec_macro_start input literal valid_symbols =
        (false, input1, literal1) := by
  unfold rpmspec_macro_start
  repeat' split
  all_goals exact ⟨_, _, rfl⟩

theorem rpmspec_scan_escape_spec (stack : ScannerState) (input : List Char) :
    (rpmspec_scan_escape stack input).produced = false ∧
    (rpmspec_scan_escape stack input).result_symbol = none ∧
    (rpmspec_scan_escape stack input).stack = stack := by
  unfold rpmspec_scan_escape
  repeat' split
  all_goals exact ⟨rfl, rfl, rfl⟩

/-- The scan entry point declines on every input and acceptable-kind set:
it produces no token, sets no result symbol, and leaves the literal stack
unchanged. -/
theorem rpmspec_scan_declines (stack : ScannerState) (input : List Char)
    (valid_symbols : TokenType → Bool) :
    (rpmspec_scan stack input valid_symbols).produced = false ∧
    (rpmspec_scan stack input valid_symbols).result_symbol = none ∧
    (rpmspec_scan stack input valid_symbols).stack = stack := by
  unfold rpmspec_scan
  split
  · obtain ⟨input1, literal1, hm⟩ :=
      rpmspec_macro_start_declines input
        { type := TokenType.MACRO_START
          open_delimiter := Char.ofNat 0
          close_delimiter := Char.ofNat 0
          nesting_depth := 1
          allows_interpolation := false } valid_symbols
    rw [hm]
    simp only [Bool.false_eq_true, if_false]
    exact rpmspec_scan_escape_spec stack input1
  · exact rpmspec_scan_escape_spec stack input

/-- Every state reachable through create, scan, serialize and deserialize
has the empty literal stack. -/
theorem reachable_empty (s : ScannerState) (h : Reachable s) : s = [] := by
  induction h with
  | create => rfl
  | scan s input valid_symbols h ih =>
    rw [(rpmspec_scan_declines s input valid_symbols).2.2]
    exact ih
  | deserialize s buffer length h ih => exact ih

/-- C1: for every reachable ContextStack s (including the empty stack),
deserializing the bytes produced by serializing s — into a scanner whose
own state is likewise reachable — yields a stack equal to s.  The bytes
produced are the first `written` entries of the returned buffer. -/
theorem C1_serialize_deserialize_roundtrip (s t : ScannerState)
    (buffer : List Nat) (hs : Reachable s) (ht : Reachable t) :
    rpmspec_deserialize t
      (List.take (rpmspec_serialize s buffer).2 (rpmspec_serialize s buffer).1)
      (rpmspec_serialize s buffer).2 = s := by
  rw [reachable_empty t ht, reachable_empty s hs]
  rfl

/-- C1 witness: the round trip at the freshly created scanner with an
empty caller buffer. -/
theorem C1_witness :
    rpmspec_deserialize scanner_create
      (List.take (rpmspec_serialize scanner_create []).2
        (rpmspec_serialize scanner_create []).1)
      (rpmspec_serialize scanner_create []).2 = scanner_create :=
  C1_serialize_deserialize_roundtrip scanner_create scanner_create []
    Reachable.create Reachable.create

/-- C2: claimed — on `%` followed by `{` with MACRO_START acceptable,
scan pushes a depth-1 brace context and produces MACRO_START.  Evaluated
on the code: every control path of `rpmspec_macro_start` returns false
(the success flag is never set), so on input `%{foo}` with every kind
acceptable scan produces no token and pushes nothing. -/
theorem C2_macro_start_stub_declines :
    (∀ input literal valid_symbols, ∃ input1 literal1,
      rpmspec_macro_start input literal valid_symbols =
        (false, input1, literal1)) ∧
    (rpmspec_scan [] ['%', '{', 'f', 'o', 'o', '}']
        (fun _ => true)).produced = false ∧
    (rpmspec_scan [] ['%', '{', 'f', 'o', 'o', '}']
        (fun _ => true)).stack = [] :=
  ⟨rpmspec_macro_start_declines, rfl, rfl⟩

/-- C3: claimed — on `%{` + N `{` + (N+1) `}` the scanner emits exactly
one MACRO_START and one MACRO_END.  Evaluated on the code at N = 0, input
`%{}` with every kind acceptable: the first scan call declines having
consumed `%{` and emits nothing, and a scan call at the closing brace
declines without consuming, so neither MACRO_START nor MACRO_END is ever
emitted. -/
theorem C3_balanced_nesting_stub :
    (rpmspec_scan [] ['%', '{', '}'] (fun _ => true)).produced = false ∧
    (rpmspec_scan [] ['%', '{', '}'] (fun _ => true)).result_symbol = none ∧
    (rpmspec_scan [] ['%', '{', '}'] (fun _ => true)).input = ['}'] ∧
    (rpmspec_scan [] ['}'] (fun _ => true)).produced = false ∧
    (rpmspec_scan [] ['}'] (fun _ => true)).result_symbol = none :=
  ⟨rfl, rfl, rfl, rfl, rfl⟩

/-- C4 counterexample: on input `%%x` with no kind acceptable, the escape
switch returns false right after seeing the second `%`, so only the first
`%` has been consumed: the remaining input is `%x`, not `x` — scan does
not consume both characters. -/
theorem C4_counterexample :
    (rpmspec_scan [] ['%', '%', 'x'] (fun _ => false)).input = ['%', 'x'] ∧
    (['%', 'x'] : List Char) ≠ ['x'] := by
  exact ⟨rfl, by decide⟩

/-- C4 amended: when scan encounters `%` immediately followed by `%`, it
returns no token and leaves the ContextStack unchanged; it consumes both
characters when MACRO_START is acceptable (the dispatcher consumes the
first and the escape switch the second), but only the first `%` when
MACRO_START is not acceptable. -/
theorem C4_escape_no_token (stack : ScannerState) (rest : List Char)
    (valid_symbols : TokenType → Bool) :
    (rpmspec_scan stack ('%' :: '%' :: rest) valid_symbols).produced =
      false ∧
    (rpmspec_scan stack ('%' :: '%' :: rest) valid_symbols).stack = stack ∧
    (rpmspec_scan stack ('%' :: '%' :: rest) valid_symbols).input =
      (if valid_symbols TokenType.MACRO_START then rest
       else '%' :: rest) := by
  cases hv : valid_symbols TokenType.MACRO_START <;>
    simp [rpmspec_scan, rpmspec_macro_start, rpmspec_scan_escape,
      lookahead, advance, hv]

/-- C5: on input `%_foo123 bar` with MacroExpansion acceptable, the
simple-macro scanner produces exactly one MacroExpansion token whose span
is `%_foo123` (the committed end boundary is the last accepted name
character), leaving ` bar` unconsumed. -/
theorem C5_simple_macro_greedy :
    rpmspec_simple_macro
      ['%', '_', 'f', 'o', 'o', '1', '2', '3', ' ', 'b', 'a', 'r']
      (fun _ => true) =
    some (SpecTokenKind.MacroExpansion,
      ['%', '_', 'f', 'o', 'o', '1', '2', '3'], [' ', 'b', 'a', 'r']) := by
  rfl

/-- C6: for input `%{foo}`, when the acceptable-kind set excludes
MACRO_START, scan does not produce a MACRO_START token: it declines. -/
theorem C6_unacceptable_kind_declines (stack : ScannerState)
    (valid_symbols : TokenType → Bool)
    (h : valid_symbols TokenType.MACRO_START = false) :
    (rpmspec_scan stack ['%', '{', 'f', 'o', 'o', '}']
        valid_symbols).produced = false ∧
    (rpmspec_scan stack ['%', '{', 'f', 'o', 'o', '}']
        valid_symbols).result_symbol ≠ some TokenType.MACRO_START := by
  obtain ⟨h1, h2, _⟩ := rpmspec_scan_declines stack
    ['%', '{', 'f', 'o', 'o', '}'] valid_symbols
  refine ⟨h1, ?_⟩
  rw [h2]
  simp

/-- C6 witness: the all-false acceptable set at the empty stack. -/
theorem C6_witness :
    ((fun _ => false) TokenType.MACRO_START) = false ∧
    ((rpmspec_scan [] ['%', '{', 'f', 'o', 'o', '}']
        (fun _ => false)).produced = false ∧
     (rpmspec_scan [] ['%', '{', 'f', 'o', 'o', '}']
        (fun _ => false)).result_symbol ≠ some TokenType.MACRO_START) :=
  ⟨rfl, C6_unacceptable_kind_declines [] (fun _ => false) rfl⟩

/-- C7: whenever scan returns the declined result, the ContextStack after
the call equals the ContextStack before the call. -/
theorem C7_decline_preserves_stack (stack : ScannerState)
    (input : List Char) (valid_symbols : TokenType → Bool)
    (h : (rpmspec_scan stack input valid_symbols).produced = false) :
    (rpmspec_scan stack input valid_symbols).stack = stack :=
  (rpmspec_scan_declines stack input valid_symbols).2.2

/-- C7 witness: the declined call on `%{` with every kind acceptable
leaves the empty stack empty. -/
theorem C7_witness :
    (rpmspec_scan [] ['%', '{'] (fun _ => true)).produced = false ∧
    (rpmspec_scan [] ['%', '{'] (fun _ => true)).stack = [] :=
  ⟨rfl, C7_decline_preserves_stack [] ['%', '{'] (fun _ => true) rfl⟩

/-- C8: claimed — deserialize with a zero-length buffer resets the
scanner to the empty ContextStack regardless of its prior state.
Evaluated on the code: the body of `rpmspec_deserialize` is a TODO stub
that leaves the state untouched, so a scanner holding one open brace
context keeps it after a zero-length deserialize instead of being
reset. -/
theorem C8_deserialize_stub_no_reset :
    rpmspec_deserialize
      [{ type := TokenType.MACRO_START, open_delimiter := '{',
         close_delimiter := '}', nesting_depth := 1,
         allows_interpolation := false }] [] 0 =
      [{ type := TokenType.MACRO_START, open_delimiter := '{',
         close_delimiter := '}', nesting_depth := 1,
         allows_interpolation := false }] ∧
    ([{ type := TokenType.MACRO_START, open_delimiter := '{',
        close_delimiter := '}', nesting_depth := 1,
        allows_interpolation := false }] : ScannerState) ≠ [] := by
  exact ⟨rfl, by decide⟩

/-- C9: for every input and every acceptable-kind set, scan returns the
declined result, and consequently the ContextStack is empty in every
state reachable by any sequence of create, scan, serialize and
deserialize operations. -/
theorem C9_scan_always_declines_and_stack_empty :
    (∀ stack input valid_symbols,
      (rpmspec_scan stack input valid_symbols).produced = false) ∧
    (∀ s, Reachable s → s = []) :=
  ⟨fun stack input valid_symbols =>
    (rpmspec_scan_declines stack input valid_symbols).1,
   reachable_empty⟩

/-- C9 witness: the declined call on `%` and the emptiness of the freshly
created state. -/
theorem C9_witness :
    (rpmspec_scan [] ['%'] (fun _ => true)).produced = false ∧
    scanner_create = ([] : ScannerState) :=
  ⟨C9_scan_always_declines_and_stack_empty.1 [] ['%'] (fun _ => true),
   C9_scan_always_declines_and_stack_empty.2 scanner_create
     Reachable.create⟩

/-- C10: for every scanner state and every caller buffer, serialize
returns length 0 and writes no bytes: the buffer comes back unchanged. -/
theorem C10_serialize_writes_nothing (s : ScannerState)
    (buffer : List Nat) :
    rpmspec_serialize s buffer = (buffer, 0) := rfl
